import Mathlib

/-!
Verification development for the libsysfs object-model builders
(`src/lib/sysfs_device.c` and `src/lib/sysfs_class.c`).

The two source files are shallowly embedded as pure Lean functions over an
abstract filesystem snapshot.  Collaborators that live outside `src/`
(the directory layer `sysfs_dir.c`, the driver builder `sysfs_driver.c`,
the `dlist` container, the constants of `libsysfs.h`) are modelled from the
specification and clearly marked `Modelled from the spec:` in their doc
comments.  Pointers held in weak cross-references are modelled as indices
into per-build object stores, so that aliasing and back-references are
observable exactly as in the C code.
-/

namespace Sysfs

/-- An attribute entry of a directory snapshot: a file name and its textual
value. -/
structure SAttr where
  name : String
  value : String
deriving Repr, DecidableEq

/-- A symbolic-link entry of a directory snapshot: the link name and the
target path it resolves to. -/
structure SLink where
  name : String
  target : String
deriving Repr, DecidableEq

/-- The one-level contents of a directory as produced by `read_directory`:
ordered attribute entries, ordered subdirectory paths, ordered symlink
entries. -/
structure DirContents where
  attributes : List SAttr
  subdirs : List String
  links : List SLink
deriving Repr, DecidableEq

/-- The state of one path in the abstract filesystem: `absent` means
`open_directory` fails there, `unreadable` means it opens but
`read_directory` fails, `ok c` means both succeed and yield contents `c`. -/
inductive DirState where
  | absent
  | unreadable
  | ok (c : DirContents)
deriving Repr, DecidableEq

/-- The abstract filesystem: a finite map from paths to directory states.
Paths not listed are absent. -/
def FSMap := List (String × DirState)

/-- Look up the state of a path in the abstract filesystem. -/
def FSMap.stat (fs : FSMap) (p : String) : DirState :=
  match fs.find? (fun e => e.1 == p) with
  | some e => e.2
  | none => DirState.absent

/-- The environment a build runs in: the filesystem snapshot, the external
bus-name lookup (`bus_name_for(bus_id) -> String | absent`, with absence
modelled as the empty string, as the source leaves `bus_name` empty), and
the mount point (`mount_path() -> Path | Error`). -/
structure Env where
  fs : FSMap
  bus : String → String
  mnt : Option String

/-- Modelled from the spec: constant of `libsysfs.h` (not under `src/`), the
name of the attribute holding the human-readable device name. -/
def SYSFS_NAME_ATTRIBUTE : String := "name"

/-- Modelled from the spec: constant of `libsysfs.h` (not under `src/`), the
well-known device-link name. -/
def SYSFS_DEVICES_NAME : String := "devices"

/-- Modelled from the spec: constant of `libsysfs.h` (not under `src/`), the
well-known driver-link name. -/
def SYSFS_DRIVERS_NAME : String := "drivers"

/-- Modelled from the spec: constant of `libsysfs.h` (not under `src/`), the
mount-relative class directory. -/
def SYSFS_CLASS_DIR : String := "/class"

/-- Modelled from the spec: `name_from_path(path) -> String | Error("invalid
path")` (`sysfs_get_name_from_path`, `sysfs_utils.c`, not under `src/`).
Returns the non-empty tail component of the path. -/
def sysfs_get_name_from_path (path : String) : Option String :=
  if path.isEmpty then none
  else
    let nm := String.mk
      (path.data.foldl (fun acc c => if c == '/' then [] else acc ++ [c]) [])
    if nm.isEmpty then none else some nm

/-- Modelled from the spec: `read_attribute_value(attributes, attr_name) ->
Bytes | absent` (`sysfs_get_value_from_attributes`, `sysfs_dir.c`, not under
`src/`).  Returns the value of the first attribute entry with the given
name, or absent. -/
def sysfs_get_value_from_attributes (attrs : List SAttr) (nm : String) :
    Option String :=
  (attrs.find? (fun a => a.name == nm)).map SAttr.value

/-- Modelled from the spec: the eager one-level read of every subdirectory
of an already-read snapshot (`sysfs_read_all_subdirs`, `sysfs_dir.c`, not
under `src/`): reads the contents of each subdirectory; reports an error
when any subdirectory cannot be opened or read. -/
def sysfs_read_all_subdirs (fs : FSMap) (c : DirContents) :
    Option (List (String × DirContents)) :=
  c.subdirs.mapM (fun p =>
    match fs.stat p with
    | DirState.ok cc => some (p, cc)
    | _ => none)

/-- Modelled from the spec: the insert operation of the generic
insertion-ordered collection (`dlist_unshift` of the `dlist` container, not
under `src/`); per the spec the container is insertion-ordered and builders
append to it, allocating the collection on first use (`none` is the
never-allocated collection). -/
def dlist_unshift (l : Option (List α)) (x : α) : List α :=
  l.getD [] ++ [x]

/-- The device object built by `sysfs_open_device` (`struct sysfs_device`):
identity fields, the path of its owned directory snapshot, and the weak
non-owning back-reference to a driver, modelled as an index into the
enclosing build's driver store. -/
structure SDevice where
  bus_id : String
  bus_name : String
  name : String
  dirPath : String
  driver : Option Nat
deriving Repr, DecidableEq

/-- The driver object built by the driver builder (`struct sysfs_driver`):
identity fields and the weak non-owning back-reference to a device, modelled
as an index into the enclosing build's device store. -/
structure SDriver where
  name : String
  path : String
  device : Option Nat
deriving Repr, DecidableEq

/-- The device name parse of `sysfs_open_device` (lines 126 to 134 of
`sysfs_device.c`): look up the attribute literally named "name"; when found,
copy its value and trim one trailing newline when the value is non-empty and
ends in a newline; when absent, the name stays empty. -/
def deviceNameFromAttrs (attrs : List SAttr) : String :=
  match sysfs_get_value_from_attributes attrs SYSFS_NAME_ATTRIBUTE with
  | none => ""
  | some v =>
    match v.data.getLast? with
    | some ch => if ch == '\n' then String.mk v.data.dropLast else v
    | none => v

/-- Embedding of `sysfs_open_device` (`sysfs_device.c`, lines 94 to 137):
opens and reads the directory at `path` (failing when either step fails),
sets `bus_id` from the directory name, resolves `bus_name` through the
external lookup, and parses the optional "name" attribute.  The `driver`
weak reference starts absent (`calloc`). -/
def sysfs_open_device (env : Env) (path : String) : Option SDevice :=
  match env.fs.stat path with
  | DirState.ok c =>
    let bid := (sysfs_get_name_from_path path).getD ""
    some { bus_id := bid
           bus_name := env.bus bid
           name := deviceNameFromAttrs c.attributes
           dirPath := path
           driver := none }
  | _ => none

/-- Modelled from the spec: the Driver Builder (`sysfs_open_driver`,
`sysfs_driver.c`, not under `src/`), a sibling builder with the same
contract as the Device Node Builder: opens and reads the directory at the
target path, failing when either step fails; its weak `device`
back-reference starts absent. -/
def sysfs_open_driver (env : Env) (path : String) : Option SDriver :=
  match sysfs_get_name_from_path path with
  | none => none
  | some nm =>
    match env.fs.stat path with
    | DirState.ok _ => some { name := nm, path := path, device := none }
    | _ => none

/-- The mutable state of the symlink scan of `sysfs_open_class_device`
(lines 165 to 187 of `sysfs_class.c`): the stores of device and driver
objects allocated so far (heap; pointers are indices), and the two fields
`cdev->sysdevice` and `cdev->driver`. -/
structure LinkScanState where
  devs : List SDevice
  drvs : List SDriver
  sysdevice : Option Nat
  driver : Option Nat
deriving Repr, DecidableEq

/-- One iteration of the symlink loop of `sysfs_open_class_device` (lines
167 to 185 of `sysfs_class.c`): a link whose first six characters match the
device-link constant is resolved with `sysfs_open_device`; on success the
new device becomes `cdev->sysdevice` and, when `cdev->driver` is already
set, the new device's weak `driver` reference is set to it.  Symmetrically
for a link matching the driver-link constant.  Other links are skipped. -/
def scanLink (env : Env) (st : LinkScanState) (l : SLink) : LinkScanState :=
  if l.name.take 6 == SYSFS_DEVICES_NAME.take 6 then
    match sysfs_open_device env l.target with
    | none => st
    | some sdev =>
      let sdev := if st.driver.isSome then { sdev with driver := st.driver }
                  else sdev
      { st with devs := st.devs ++ [sdev], sysdevice := some st.devs.length }
  else if l.name.take 6 == SYSFS_DRIVERS_NAME.take 6 then
    match sysfs_open_driver env l.target with
    | none => st
    | some drv =>
      let drv := if st.sysdevice.isSome then { drv with device := st.sysdevice }
                 else drv
      { st with drvs := st.drvs ++ [drv], driver := some st.drvs.length }
  else st

/-- The directory snapshot owned by a class device: its path, its one-level
contents, and the outcome of the eager one-level subdirectory read. -/
structure CDirSnapshot where
  path : String
  contents : DirContents
  subdirsRead : Option (List (String × DirContents))
deriving Repr, DecidableEq

/-- The class device object (`struct sysfs_class_device`): name, path, the
owned directory snapshot, and the two optional owned objects, referenced by
index into the stores of the same build result. -/
structure ClassDevice where
  name : String
  path : String
  directory : Option CDirSnapshot
  sysdevice : Option Nat
  driver : Option Nat
deriving Repr, DecidableEq

/-- The result of one `sysfs_open_class_device` build: the class device
together with the stores holding the device and driver objects it
allocated (indices in `ClassDevice` and in the weak references point into
these stores). -/
structure OpenCDevResult where
  cdev : ClassDevice
  devs : List SDevice
  drvs : List SDriver
deriving Repr, DecidableEq

/-- Embedding of `sysfs_open_class_device` (`sysfs_class.c`, lines 125 to
188): parse the short name from the path tail (failing on a bad parse),
open and read the directory snapshot (failing and releasing the partial
object when either step fails), perform the eager one-level subdirectory
read with its outcome ignored (line 161 discards the result of
`sysfs_read_all_subdirs`), then scan the snapshot's symlinks once for
device and driver links. -/
def sysfs_open_class_device (env : Env) (path : String) :
    Option OpenCDevResult :=
  match sysfs_get_name_from_path path with
  | none => none
  | some nm =>
    match env.fs.stat path with
    | DirState.absent => none
    | DirState.unreadable => none
    | DirState.ok c =>
      let sub := sysfs_read_all_subdirs env.fs c
      let st := c.links.foldl (scanLink env)
        { devs := [], drvs := [], sysdevice := none, driver := none }
      some { cdev := { name := nm
                       path := path
                       directory := some { path := path, contents := c,
                                           subdirsRead := sub }
                       sysdevice := st.sysdevice
                       driver := st.driver }
             devs := st.devs
             drvs := st.drvs }

/-- The class object (`struct sysfs_class`): name, path, the owned directory
snapshot of the class root, and the optional collection of class devices
(absent when never allocated). -/
structure SClass where
  name : String
  path : String
  directory : Option CDirSnapshot
  devices : Option (List OpenCDevResult)
deriving Repr, DecidableEq

/-- Embedding of `get_all_class_devices` (`sysfs_class.c`, lines 195 to
220): walk the subdirectory paths of the class snapshot in order, building
each class device; a failing build is skipped and the walk continues; a
success allocates the devices collection on first use and inserts the new
device. -/
def get_all_class_devices (env : Env) (acc : Option (List OpenCDevResult)) :
    List String → Option (List OpenCDevResult)
  | [] => acc
  | p :: ps =>
    match sysfs_open_class_device env p with
    | none => get_all_class_devices env acc ps
    | some r => get_all_class_devices env (some (dlist_unshift acc r)) ps

/-- Embedding of `sysfs_open_class` together with its helper
`open_class_dir` (`sysfs_class.c`, lines 86 to 118 and 226 to 258): fails
when the mount point is undiscoverable or when the class root cannot be
opened or read; otherwise builds the class devices from the immediate
subdirectories of the class root, skipping per-device failures. -/
def sysfs_open_class (env : Env) (name : String) : Option SClass :=
  match env.mnt with
  | none => none
  | some m =>
    match env.fs.stat (m ++ SYSFS_CLASS_DIR ++ "/" ++ name) with
    | DirState.ok c =>
      some { name := name
             path := m ++ SYSFS_CLASS_DIR ++ "/" ++ name
             directory := some { path := m ++ SYSFS_CLASS_DIR ++ "/" ++ name,
                                 contents := c, subdirsRead := none }
             devices := get_all_class_devices env none c.subdirs }
    | _ => none

/-- A region of the filesystem rooted at one directory, as the recursive
device-tree builder sees it.  The builder re-opens each subdirectory path
recorded in the parent snapshot; the snapshot being immutable during a
build, a subdirectory entry denotes the corresponding subtree, an `absent`
child one whose `open_directory` fails, an `unreadable` child one whose
`read_directory` fails. -/
inductive FsTree where
  | absent
  | unreadable
  | node (name : String) (path : String) (attrs : List SAttr)
      (links : List SLink) (subs : List FsTree)
deriving Repr

/-- Identity fields of one device node of a tree (`struct sysfs_device`
without the children collection): the `driver` weak reference is present in
the struct and stays absent for tree-built devices. -/
structure DevBase where
  bus_id : String
  bus_name : String
  name : String
  path : String
  driver : Option Nat
deriving Repr, DecidableEq

/-- A built device tree: the root device and its optional children
collection (`none` models the never-allocated collection). -/
inductive DevTree where
  | mk (base : DevBase) (children : Option (List DevTree))
deriving Repr

/-- Root device of a built tree. -/
def DevTree.base : DevTree → DevBase
  | .mk b _ => b

/-- Children collection of a built tree's root. -/
def DevTree.children : DevTree → Option (List DevTree)
  | .mk _ c => c

/-- Allocation and free events of a build or teardown trace, one per object
kind. -/
inductive Ev where
  | openDev (p : String)
  | closeDev (p : String)
  | closeDir (p : String)
  | closeDrv (p : String)
  | closeCDev (p : String)
  | closeCls (p : String)
deriving Repr, DecidableEq

mutual

/-- Embedding of `sysfs_close_device_tree` (`sysfs_device.c`, lines 144 to
157) as its trace of freed objects: recursively close every child, then
close the root itself via `sysfs_close_device`, which frees the owned
snapshot and the node; the weak `driver` reference is never followed. -/
def closeDevTreeEv : DevTree → List Ev
  | .mk b none => [Ev.closeDir b.path, Ev.closeDev b.path]
  | .mk b (some kids) =>
    closeDevTreeListEv kids ++ [Ev.closeDir b.path, Ev.closeDev b.path]

/-- Trace of closing a list of subtrees in order (the `dlist_for_each_data`
loop of `sysfs_close_device_tree`). -/
def closeDevTreeListEv : List DevTree → List Ev
  | [] => []
  | t :: ts => closeDevTreeEv t ++ closeDevTreeListEv ts

end

mutual

/-- Embedding of `sysfs_open_device_tree` (`sysfs_device.c`, lines 166 to
199), instrumented with its trace of device allocations and frees: open the
root device (one allocation event), then build every subdirectory subtree
in snapshot order; a failing child build closes the partially built root
together with the already-built children (`sysfs_close_device_tree`) and
propagates the failure; a successful child is inserted into the children
collection, allocated on first use. -/
def openDevTreeEv (bus : String → String) :
    FsTree → Option DevTree × List Ev
  | .absent => (none, [])
  | .unreadable => (none, [])
  | .node nm p attrs _links subs =>
    let base : DevBase :=
      { bus_id := nm, bus_name := bus nm,
        name := deviceNameFromAttrs attrs, path := p, driver := none }
    match openDevChildrenEv bus base none subs with
    | (none, evs) => (none, Ev.openDev p :: evs)
    | (some kids, evs) => (some (DevTree.mk base kids), Ev.openDev p :: evs)

/-- The children loop of `sysfs_open_device_tree` (lines 180 to 196), with
`acc` the children collection built so far for the root `base`: on a child
failure, the trace ends with the teardown of the root and the children
built so far, and the failure is propagated. -/
def openDevChildrenEv (bus : String → String) (base : DevBase)
    (acc : Option (List DevTree)) :
    List FsTree → Option (Option (List DevTree)) × List Ev
  | [] => (some acc, [])
  | t :: ts =>
    match openDevTreeEv bus t with
    | (none, evs) => (none, evs ++ closeDevTreeEv (DevTree.mk base acc))
    | (some child, evs) =>
      let r := openDevChildrenEv bus base (some (dlist_unshift acc child)) ts
      (r.1, evs ++ r.2)

end

/-- Embedding of `sysfs_open_device_tree` as seen by callers: the built
tree, or an error. -/
def sysfs_open_device_tree (bus : String → String) (t : FsTree) :
    Option DevTree :=
  (openDevTreeEv bus t).1

/-- Number of device allocation events in a trace. -/
def countOpenDev (evs : List Ev) : Nat :=
  evs.countP (fun e => match e with | Ev.openDev _ => true | _ => false)

/-- Number of device free events in a trace. -/
def countCloseDev (evs : List Ev) : Nat :=
  evs.countP (fun e => match e with | Ev.closeDev _ => true | _ => false)

/-- Embedding of `sysfs_close_device` (`sysfs_device.c`, lines 38 to 47) as
its trace of freed objects, applied to the flat device objects of a
class-device build: frees the owned snapshot and the device itself; the
weak `driver` reference is not followed; a null input is a no-op. -/
def closeDeviceEv : Option SDevice → List Ev
  | none => []
  | some d => [Ev.closeDir d.dirPath, Ev.closeDev d.dirPath]

/-- Modelled from the spec: `sysfs_close_driver` (`sysfs_driver.c`, not
under `src/`) as its trace of freed objects: frees the driver's owned
snapshot and the driver itself; the weak `device` reference is never
followed; a null input is a no-op. -/
def closeDriverEv : Option SDriver → List Ev
  | none => []
  | some d => [Ev.closeDir d.path, Ev.closeDrv d.path]

/-- Embedding of `sysfs_close_class_device` (`sysfs_class.c`, lines 35 to
46) as its trace of freed objects: closes the owned snapshot, the
optionally owned device (via `sysfs_close_device`) and the optionally owned
driver (via `sysfs_close_driver`), then frees the class device; a null
input is a no-op. -/
def closeClassDeviceEv : Option OpenCDevResult → List Ev
  | none => []
  | some r =>
    (match r.cdev.directory with
     | none => []
     | some d => [Ev.closeDir d.path]) ++
    closeDeviceEv (r.cdev.sysdevice.bind (fun i => r.devs[i]?)) ++
    closeDriverEv (r.cdev.driver.bind (fun i => r.drvs[i]?)) ++
    [Ev.closeCDev r.cdev.path]

/-- Embedding of `sysfs_close_class` (`sysfs_class.c`, lines 52 to 61) as
its trace of freed objects: closes the owned snapshot, destroys the devices
collection (whose delete callback `sysfs_close_cls_dev` closes each class
device in order), then frees the class; a null input is a no-op. -/
def closeClassEv : Option SClass → List Ev
  | none => []
  | some cls =>
    (match cls.directory with
     | none => []
     | some d => [Ev.closeDir d.path]) ++
    (match cls.devices with
     | none => []
     | some ds => ds.flatMap (fun r => closeClassDeviceEv (some r))) ++
    [Ev.closeCls cls.path]

/-! Projection helpers used to state concrete facts about build results. -/

/-- The weak `driver` reference held by the device a class-device build
resolved, read back through the build's stores (`some none` means the
device is present but its back-reference is absent). -/
def cdevDeviceDriverRef (o : Option OpenCDevResult) : Option (Option Nat) :=
  o.bind (fun r => r.cdev.sysdevice.bind
    (fun i => (r.devs[i]?).map SDevice.driver))

/-- The weak `device` reference held by the driver a class-device build
resolved, read back through the build's stores. -/
def cdevDriverDeviceRef (o : Option OpenCDevResult) : Option (Option Nat) :=
  o.bind (fun r => r.cdev.driver.bind
    (fun i => (r.drvs[i]?).map SDriver.device))

/-- The `driver` field of the class device of a build result. -/
def cdevDriverIdx (o : Option OpenCDevResult) : Option (Option Nat) :=
  o.map (fun r => r.cdev.driver)

/-- The `sysdevice` field of the class device of a build result. -/
def cdevSysdeviceIdx (o : Option OpenCDevResult) : Option (Option Nat) :=
  o.map (fun r => r.cdev.sysdevice)

/-- The recorded outcome of the eager subdirectory read of a class-device
build result. -/
def cdevSubdirsRead (o : Option OpenCDevResult) :
    Option (Option (List (String × DirContents))) :=
  o.bind (fun r => r.cdev.directory.map CDirSnapshot.subdirsRead)

/-- The snapshot path of the device a build resolved through its device
link. -/
def stDevTarget (st : LinkScanState) : Option String :=
  st.sysdevice.bind (fun i => (st.devs[i]?).map SDevice.dirPath)

/-- The path of the driver a build resolved through its driver link. -/
def stDrvTarget (st : LinkScanState) : Option String :=
  st.driver.bind (fun i => (st.drvs[i]?).map SDriver.path)

/-- The snapshot path of the device a class-device build resolved, read
back through its stores. -/
def resultDevTarget (r : OpenCDevResult) : Option String :=
  r.cdev.sysdevice.bind (fun i => (r.devs[i]?).map SDevice.dirPath)

/-- The path of the driver a class-device build resolved, read back through
its stores. -/
def resultDrvTarget (r : OpenCDevResult) : Option String :=
  r.cdev.driver.bind (fun i => (r.drvs[i]?).map SDriver.path)

/-- Range validity of the two object references of a scan state. -/
def StOK (st : LinkScanState) : Prop :=
  (∀ i, st.sysdevice = some i → i < st.devs.length) ∧
  (∀ i, st.driver = some i → i < st.drvs.length)

/-- The target of the last symlink entry that is classified as a device
link (first six characters of its name equal the first six of the
device-link constant) and whose target resolves with `sysfs_open_device`:
later matching links override earlier ones, failing resolutions leave the
previous value. -/
def lastDeviceLinkTarget (env : Env) (ls : List SLink) : Option String :=
  ls.foldl (fun acc l =>
    if l.name.take 6 == SYSFS_DEVICES_NAME.take 6 then
      match sysfs_open_device env l.target with
      | some _ => some l.target
      | none => acc
    else acc) none

/-- The target of the last symlink entry that is classified as a driver
link and whose target resolves with the driver builder. -/
def lastDriverLinkTarget (env : Env) (ls : List SLink) : Option String :=
  ls.foldl (fun acc l =>
    if l.name.take 6 == SYSFS_DRIVERS_NAME.take 6 then
      match sysfs_open_driver env l.target with
      | some _ => some l.target
      | none => acc
    else acc) none

/-! Concrete fixtures: small filesystem snapshots used by witnesses and
counterexamples. -/

/-- Empty directory contents. -/
def emptyDir : DirContents :=
  { attributes := [], subdirs := [], links := [] }

/-- Fixture for the device-name parse: one device directory with a "name"
attribute carrying a trailing newline, one without the attribute. -/
def envName : Env :=
  { fs := [("/sys/devices/a",
             DirState.ok { attributes := [{ name := "name", value := "eth0\n" }],
                           subdirs := [], links := [] }),
           ("/sys/devices/b", DirState.ok emptyDir)],
    bus := fun _ => "", mnt := none }

/-- Fixture with a class device whose device link is resolved before its
driver link, both targets present. -/
def envDevFirst : Env :=
  { fs := [("/sys/class/net/eth0",
             DirState.ok { attributes := [], subdirs := [],
                           links := [{ name := "device", target := "/sys/devices/d1" },
                                     { name := "driver", target := "/sys/bus/drv/r1" }] }),
           ("/sys/devices/d1", DirState.ok emptyDir),
           ("/sys/bus/drv/r1", DirState.ok emptyDir)],
    bus := fun _ => "", mnt := some "/sys" }

/-- Fixture with a class device whose driver link is resolved before its
device link, both targets present. -/
def envDrvFirst : Env :=
  { fs := [("/sys/class/net/eth0",
             DirState.ok { attributes := [], subdirs := [],
                           links := [{ name := "driver", target := "/sys/bus/drv/r1" },
                                     { name := "device", target := "/sys/devices/d1" }] }),
           ("/sys/devices/d1", DirState.ok emptyDir),
           ("/sys/bus/drv/r1", DirState.ok emptyDir)],
    bus := fun _ => "", mnt := some "/sys" }

/-- Fixture with a class device whose device link points at a non-existent
target while the driver link resolves. -/
def envDevMissing : Env :=
  { fs := [("/sys/class/net/eth0",
             DirState.ok { attributes := [], subdirs := [],
                           links := [{ name := "device", target := "/sys/devices/gone" },
                                     { name := "driver", target := "/sys/bus/drv/r1" }] }),
           ("/sys/bus/drv/r1", DirState.ok emptyDir)],
    bus := fun _ => "", mnt := some "/sys" }

/-- Fixture with a class device directory whose only subdirectory cannot be
read: the eager one-level subdirectory read fails while the directory
itself opens and reads fine. -/
def envSubFail : Env :=
  { fs := [("/sys/class/net/eth0",
             DirState.ok { attributes := [], subdirs := ["/sys/class/net/eth0/s"],
                           links := [] })],
    bus := fun _ => "", mnt := some "/sys" }

/-- Fixture with two device-prefixed links (the second named "device2") and
two driver-prefixed links, all resolving: classification is by six-character
prefix and later matching links override earlier ones. -/
def envTwoDev : Env :=
  { fs := [("/sys/class/net/eth0",
             DirState.ok { attributes := [], subdirs := [],
                           links := [{ name := "device", target := "/sys/devices/d1" },
                                     { name := "device2", target := "/sys/devices/d2" },
                                     { name := "driver", target := "/sys/bus/drv/r1" }] }),
           ("/sys/devices/d1", DirState.ok emptyDir),
           ("/sys/devices/d2", DirState.ok emptyDir),
           ("/sys/bus/drv/r1", DirState.ok emptyDir)],
    bus := fun _ => "", mnt := some "/sys" }

/-- Fixture for the class builder: a class root with three subdirectories
of which the middle one is unreadable. -/
def envCls : Env :=
  { fs := [("/sys/class/net",
             DirState.ok { attributes := [],
                           subdirs := ["/sys/class/net/e1", "/sys/class/net/e2",
                                       "/sys/class/net/e3"],
                           links := [] }),
           ("/sys/class/net/e1", DirState.ok emptyDir),
           ("/sys/class/net/e3", DirState.ok emptyDir)],
    bus := fun _ => "", mnt := some "/sys" }

/-- The class device built from the first subdirectory of `envCls`. -/
def rCls1 : OpenCDevResult :=
  { cdev := { name := "e1", path := "/sys/class/net/e1",
              directory := some { path := "/sys/class/net/e1",
                                  contents := emptyDir,
                                  subdirsRead := some [] },
              sysdevice := none, driver := none },
    devs := [], drvs := [] }

/-- The class device built from the third subdirectory of `envCls`. -/
def rCls3 : OpenCDevResult :=
  { cdev := { name := "e3", path := "/sys/class/net/e3",
              directory := some { path := "/sys/class/net/e3",
                                  contents := emptyDir,
                                  subdirsRead := some [] },
              sysdevice := none, driver := none },
    devs := [], drvs := [] }

/-- The class built from `envCls` for name "net". -/
def clsNet : SClass :=
  { name := "net", path := "/sys/class/net",
    directory := some { path := "/sys/class/net",
                        contents := { attributes := [],
                                      subdirs := ["/sys/class/net/e1",
                                                  "/sys/class/net/e2",
                                                  "/sys/class/net/e3"],
                                      links := [] },
                        subdirsRead := none },
    devices := some [rCls1, rCls3] }

/-- A device tree fixture that builds fully: a root with two child
directories. -/
def tOk : FsTree :=
  FsTree.node "r" "/sys/devices/r" [] []
    [FsTree.node "a" "/sys/devices/r/a" [] [] [],
     FsTree.node "b" "/sys/devices/r/b" [] [] []]

/-- A device tree fixture whose second child fails to open. -/
def tFail : FsTree :=
  FsTree.node "r" "/sys/devices/r" [] []
    [FsTree.node "a" "/sys/devices/r/a" [] [] [],
     FsTree.absent]

/-- A bus-name lookup with no matches (every `bus_name` stays empty). -/
def busN : String → String := fun _ => ""

/-- The device node built for a directory named `nm` at path `p` with no
attributes, under `busN`. -/
def plainBase (nm p : String) : DevBase :=
  { bus_id := nm, bus_name := "", name := "", path := p, driver := none }

/-- The tree built from `tOk`. -/
def tOkBuilt : DevTree :=
  DevTree.mk (plainBase "r" "/sys/devices/r")
    (some [DevTree.mk (plainBase "a" "/sys/devices/r/a") none,
           DevTree.mk (plainBase "b" "/sys/devices/r/b") none])

/-- The subtree built for each subdirectory entry of a snapshot, in
snapshot order; absent when any child build fails. -/
def buildKidsInOrder (bus : String → String) :
    List FsTree → Option (List DevTree)
  | [] => some []
  | t :: ts =>
    match sysfs_open_device_tree bus t with
    | none => none
    | some d =>
      match buildKidsInOrder bus ts with
      | none => none
      | some ds => some (d :: ds)

mutual

/-- Every children collection of the tree, root included, is either absent
or non-empty. -/
def devTreeWF : DevTree → Bool
  | .mk _ none => true
  | .mk _ (some kids) => !kids.isEmpty && devTreeListWF kids

/-- Conjunction of `devTreeWF` over a list of subtrees. -/
def devTreeListWF : List DevTree → Bool
  | [] => true
  | t :: ts => devTreeWF t && devTreeListWF ts

end

/-- Well-formedness of a children accumulator: absent, or non-empty with
every member well-formed. -/
def kidsWF : Option (List DevTree) → Bool
  | none => true
  | some l => !l.isEmpty && devTreeListWF l

mutual

/-- Number of device nodes of a built tree. -/
def devTreeSize : DevTree → Nat
  | .mk _ none => 1
  | .mk _ (some kids) => 1 + devTreeListSize kids

/-- Number of device nodes of a list of built trees. -/
def devTreeListSize : List DevTree → Nat
  | [] => 0
  | t :: ts => devTreeSize t + devTreeListSize ts

end

/-- Number of device nodes held by a children accumulator. -/
def kidsSize : Option (List DevTree) → Nat
  | none => 0
  | some l => devTreeListSize l

/-- Embedding of `sysfs_close_device_tree` as called with a possibly null
root (the source checks `devroot != NULL` and does nothing on null). -/
def sysfs_close_device_tree : Option DevTree → List Ev
  | none => []
  | some t => closeDevTreeEv t

mutual

/-- Rewrite the weak `driver` reference of every device node of a tree,
leaving all owned structure unchanged. -/
def mapTreeDriver (f : Option Nat → Option Nat) : DevTree → DevTree
  | .mk b none => .mk { b with driver := f b.driver } none
  | .mk b (some kids) =>
    .mk { b with driver := f b.driver } (some (mapTreeDriverList f kids))

/-- `mapTreeDriver` over a list of subtrees. -/
def mapTreeDriverList (f : Option Nat → Option Nat) :
    List DevTree → List DevTree
  | [] => []
  | t :: ts => mapTreeDriver f t :: mapTreeDriverList f ts

end

/-- Rewrite the weak cross-references of a class-device build result: the
`driver` reference of every stored device and the `device` reference of
every stored driver, leaving all owned structure unchanged. -/
def mapWeakRefs (f g : Option Nat → Option Nat) (r : OpenCDevResult) :
    OpenCDevResult :=
  { r with
    devs := r.devs.map (fun d => { d with driver := f d.driver }),
    drvs := r.drvs.map (fun dr => { dr with device := g dr.device }) }

/-! Theorems. -/

/-- Helper: rebuilding a string from its character data is the identity. -/
theorem mk_data (s : String) : String.mk s.data = s := by
  cases s
  rfl

/-- C9: for every successfully opened device directory, when an attribute
literally named "name" is present, `open_device` stores its textual value
with exactly one trailing newline trimmed when one is present (a value
`s ++ "\n"` is stored as `s`, a value not ending in a newline is stored
unchanged), and when no such attribute is present the device name is left
empty and the open still succeeds. -/
theorem device_name_attribute_trim (env : Env) (path : String)
    (c : DirContents) (h : env.fs.stat path = DirState.ok c) :
    ∃ d, sysfs_open_device env path = some d ∧
      (sysfs_get_value_from_attributes c.attributes SYSFS_NAME_ATTRIBUTE
          = none → d.name = "") ∧
      (∀ s, sysfs_get_value_from_attributes c.attributes SYSFS_NAME_ATTRIBUTE
          = some (s ++ "\n") → d.name = s) ∧
      (∀ v, sysfs_get_value_from_attributes c.attributes SYSFS_NAME_ATTRIBUTE
          = some v → v.data.getLast? ≠ some '\n' → d.name = v) := by
  unfold sysfs_open_device
  rw [h]
  refine ⟨_, rfl, ?_, ?_, ?_⟩
  · intro hnone
    simp [deviceNameFromAttrs, hnone]
  · intro s hval
    have hd : (s ++ "\n").data = s.data ++ ['\n'] := by
      simp
    simp only [deviceNameFromAttrs, hval, hd, List.getLast?_concat,
      List.dropLast_concat]
    simp [mk_data]
  · intro v hval hlast
    simp only [deviceNameFromAttrs, hval]
    cases hv : v.data.getLast? with
    | none => simp
    | some ch =>
      have hne : ¬ (ch = '\n') := fun hch => hlast (by rw [hv, hch])
      simp [hne]

/-- Witness for C9 at a concrete snapshot: a "name" attribute valued
`"eth0\n"` yields device name `"eth0"`; a directory without the attribute
yields the empty name. -/
theorem device_name_attribute_trim_witness :
    (sysfs_open_device envName "/sys/devices/a").map SDevice.name
      = some "eth0" ∧
    (sysfs_open_device envName "/sys/devices/b").map SDevice.name
      = some "" := by
  constructor
  · obtain ⟨d, hd, -, h2, -⟩ :=
      device_name_attribute_trim envName "/sys/devices/a"
        { attributes := [{ name := "name", value := "eth0\n" }],
          subdirs := [], links := [] } (by decide)
    rw [hd]
    simp [h2 "eth0" (by decide)]
  · obtain ⟨d, hd, h1, -, -⟩ :=
      device_name_attribute_trim envName "/sys/devices/b" emptyDir (by decide)
    rw [hd]
    simp [h1 (by decide)]

/-- C5: cross-link resolution failures are non-fatal — for a class device
directory that opens and reads successfully, a device link whose target
does not resolve is skipped, leaving `sysdevice` absent, while the scan
continues through the remaining links (here a later driver link is still
resolved), and `open_class_device` still succeeds with all other fields
populated. -/
theorem crosslink_failure_nonfatal (env : Env) (path nm : String)
    (c : DirContents) (ld lr : SLink) (dr : SDriver)
    (hn : sysfs_get_name_from_path path = some nm)
    (hs : env.fs.stat path = DirState.ok c)
    (hl : c.links = [ld, lr])
    (hld : ld.name.take 6 = SYSFS_DEVICES_NAME.take 6)
    (hfail : sysfs_open_device env ld.target = none)
    (hlr : lr.name.take 6 = SYSFS_DRIVERS_NAME.take 6)
    (hdr : sysfs_open_driver env lr.target = some dr) :
    ∃ r, sysfs_open_class_device env path = some r ∧
      r.cdev.sysdevice = none ∧
      r.cdev.driver = some 0 ∧
      r.cdev.name = nm ∧
      r.cdev.path = path ∧
      r.cdev.directory.isSome = true ∧
      r.drvs = [dr] := by
  have hld' : (ld.name.take 6 == SYSFS_DEVICES_NAME.take 6) = true := by
    rw [hld]; decide
  have hlrd : (lr.name.take 6 == SYSFS_DEVICES_NAME.take 6) = false := by
    rw [hlr]; decide
  have hlr' : (lr.name.take 6 == SYSFS_DRIVERS_NAME.take 6) = true := by
    rw [hlr]; decide
  unfold sysfs_open_class_device
  rw [hn, hs]
  simp [hl, scanLink, hld', hfail, hlrd, hlr', hdr]

/-- Witness for C5 at a concrete snapshot: the device link points at a
missing target, the driver link resolves, and the build succeeds with
`sysdevice` absent and the driver stored. -/
theorem crosslink_failure_nonfatal_witness :
    (cdevSysdeviceIdx (sysfs_open_class_device envDevMissing
        "/sys/class/net/eth0") = some none) ∧
    (cdevDriverIdx (sysfs_open_class_device envDevMissing
        "/sys/class/net/eth0") = some (some 0)) := by
  obtain ⟨r, hr, h1, h2, -, -, -, -⟩ :=
    crosslink_failure_nonfatal envDevMissing "/sys/class/net/eth0" "eth0"
      { attributes := [], subdirs := [],
        links := [{ name := "device", target := "/sys/devices/gone" },
                  { name := "driver", target := "/sys/bus/drv/r1" }] }
      { name := "device", target := "/sys/devices/gone" }
      { name := "driver", target := "/sys/bus/drv/r1" }
      { name := "r1", path := "/sys/bus/drv/r1", device := none }
      (by decide) (by decide) (by decide) (by decide) (by decide) (by decide)
      (by decide)
  rw [cdevSysdeviceIdx, cdevDriverIdx, hr]
  simp [h1, h2]

/-- Helper: a device built by `sysfs_open_device` starts with an absent weak
driver reference (`calloc` in the source). -/
theorem open_device_driver_none (env : Env) (p : String) (d : SDevice)
    (h : sysfs_open_device env p = some d) : d.driver = none := by
  unfold sysfs_open_device at h
  cases hs : env.fs.stat p <;> rw [hs] at h
  · exact absurd h (by simp)
  · exact absurd h (by simp)
  · cases Option.some_inj.mp h
    rfl

/-- Helper: a driver built by the driver builder starts with an absent weak
device reference. -/
theorem open_driver_device_none (env : Env) (p : String) (d : SDriver)
    (h : sysfs_open_driver env p = some d) : d.device = none := by
  unfold sysfs_open_driver at h
  cases hn : sysfs_get_name_from_path p <;> rw [hn] at h
  · exact absurd h (by simp)
  · cases hs : env.fs.stat p <;> rw [hs] at h
    · exact absurd h (by simp)
    · exact absurd h (by simp)
    · cases Option.some_inj.mp h
      rfl

/-- C1 counterexample: with the device link encountered first and both
links resolving, the build returns both objects (`sysdevice` and `driver`
both index 0) and sets `driver.device` to the device, but the device's
`driver` back-reference remains absent instead of equalling
`result.driver`; the claimed symmetry fails. -/
theorem classdevice_backref_symmetry_cex :
    cdevSysdeviceIdx (sysfs_open_class_device envDevFirst
        "/sys/class/net/eth0") = some (some 0) ∧
    cdevDriverIdx (sysfs_open_class_device envDevFirst
        "/sys/class/net/eth0") = some (some 0) ∧
    cdevDriverDeviceRef (sysfs_open_class_device envDevFirst
        "/sys/class/net/eth0") = some (some 0) ∧
    cdevDeviceDriverRef (sysfs_open_class_device envDevFirst
        "/sys/class/net/eth0") = some none := by
  decide

/-- C1 (amended): when a class device directory resolves both a device link
and a driver link, only the object created second receives a weak
back-reference to the one created first, whichever side that is; the
object created first keeps an absent weak field.  With the device link
first, `driver.device = device` holds but `device.driver` stays absent;
with the driver link first, `device.driver = driver` holds but
`driver.device` stays absent. -/
theorem classdevice_backref_on_later_side (env : Env) (path nm : String)
    (c : DirContents) (ld lr : SLink) (sd : SDevice) (dr : SDriver)
    (devFirst : Bool)
    (hn : sysfs_get_name_from_path path = some nm)
    (hs : env.fs.stat path = DirState.ok c)
    (hl : c.links = if devFirst then [ld, lr] else [lr, ld])
    (hld : ld.name.take 6 = SYSFS_DEVICES_NAME.take 6)
    (hsd : sysfs_open_device env ld.target = some sd)
    (hlr : lr.name.take 6 = SYSFS_DRIVERS_NAME.take 6)
    (hdr : sysfs_open_driver env lr.target = some dr) :
    ∃ r, sysfs_open_class_device env path = some r ∧
      r.cdev.sysdevice = some 0 ∧ r.cdev.driver = some 0 ∧
      (devFirst = true →
        (r.devs[0]?).map SDevice.driver = some none ∧
        (r.drvs[0]?).map SDriver.device = some (some 0)) ∧
      (devFirst = false →
        (r.devs[0]?).map SDevice.driver = some (some 0) ∧
        (r.drvs[0]?).map SDriver.device = some none) := by
  have hld' : (ld.name.take 6 == SYSFS_DEVICES_NAME.take 6) = true := by
    rw [hld]; decide
  have hlrd : (lr.name.take 6 == SYSFS_DEVICES_NAME.take 6) = false := by
    rw [hlr]; decide
  have hlr' : (lr.name.take 6 == SYSFS_DRIVERS_NAME.take 6) = true := by
    rw [hlr]; decide
  have hsdn : sd.driver = none := open_device_driver_none env ld.target sd hsd
  have hdrn : dr.device = none := open_driver_device_none env lr.target dr hdr
  unfold sysfs_open_class_device
  rw [hn, hs]
  cases devFirst with
  | true =>
    simp at hl
    simp [hl, scanLink, hld', hlrd, hlr', hsd, hdr, hsdn, hdrn]
  | false =>
    simp at hl
    simp [hl, scanLink, hld', hlrd, hlr', hsd, hdr, hsdn, hdrn]

/-- Witness for the amended C1, both orders, at concrete snapshots: the
later-created object carries the back-reference, the earlier one does
not. -/
theorem classdevice_backref_on_later_side_witness :
    (cdevDeviceDriverRef (sysfs_open_class_device envDrvFirst
        "/sys/class/net/eth0") = some (some 0) ∧
     cdevDriverDeviceRef (sysfs_open_class_device envDrvFirst
        "/sys/class/net/eth0") = some none) ∧
    (cdevDriverDeviceRef (sysfs_open_class_device envDevFirst
        "/sys/class/net/eth0") = some (some 0) ∧
     cdevDeviceDriverRef (sysfs_open_class_device envDevFirst
        "/sys/class/net/eth0") = some none) := by
  constructor
  · obtain ⟨r, hr, h1, h2, -, h4⟩ :=
      classdevice_backref_on_later_side envDrvFirst "/sys/class/net/eth0"
        "eth0"
        { attributes := [], subdirs := [],
          links := [{ name := "driver", target := "/sys/bus/drv/r1" },
                    { name := "device", target := "/sys/devices/d1" }] }
        { name := "device", target := "/sys/devices/d1" }
        { name := "driver", target := "/sys/bus/drv/r1" }
        { bus_id := "d1", bus_name := "", name := "", dirPath := "/sys/devices/d1",
          driver := none }
        { name := "r1", path := "/sys/bus/drv/r1", device := none }
        false (by decide) (by decide) (by decide) (by decide) (by decide)
        (by decide) (by decide)
    obtain ⟨h5, h6⟩ := h4 rfl
    simp [cdevDeviceDriverRef, cdevDriverDeviceRef, hr, h1, h2, h5, h6]
  · obtain ⟨r, hr, h1, h2, h3, -⟩ :=
      classdevice_backref_on_later_side envDevFirst "/sys/class/net/eth0"
        "eth0"
        { attributes := [], subdirs := [],
          links := [{ name := "device", target := "/sys/devices/d1" },
                    { name := "driver", target := "/sys/bus/drv/r1" }] }
        { name := "device", target := "/sys/devices/d1" }
        { name := "driver", target := "/sys/bus/drv/r1" }
        { bus_id := "d1", bus_name := "", name := "", dirPath := "/sys/devices/d1",
          driver := none }
        { name := "r1", path := "/sys/bus/drv/r1", device := none }
        true (by decide) (by decide) (by decide) (by decide) (by decide)
        (by decide) (by decide)
    obtain ⟨h5, h6⟩ := h3 rfl
    simp [cdevDeviceDriverRef, cdevDriverDeviceRef, hr, h1, h2, h5, h6]

/-- C6 counterexample: a class device directory that opens and reads
successfully but whose only subdirectory cannot be opened: the eager
one-level subdirectory read fails (its recorded outcome is absent), yet
`open_class_device` returns a ClassDevice instead of propagating the
error. -/
theorem snapshot_subdir_read_failure_ignored_cex :
    sysfs_read_all_subdirs envSubFail.fs
      { attributes := [], subdirs := ["/sys/class/net/eth0/s"], links := [] }
      = none ∧
    cdevSubdirsRead (sysfs_open_class_device envSubFail
        "/sys/class/net/eth0") = some none ∧
    (sysfs_open_class_device envSubFail "/sys/class/net/eth0").isSome
      = true := by
  decide

/-- C6 (amended): a failure opening or reading the class device directory
itself propagates (`open_class_device` returns an error and no partially
read ClassDevice), but a failure of the eager one-level subdirectory read
is ignored: whenever the directory itself opens, reads and name-parses
successfully, `open_class_device` returns a ClassDevice regardless of the
outcome of the subdirectory read. -/
theorem snapshot_failure_propagation (env : Env) (path : String) :
    ((env.fs.stat path = DirState.absent ∨
      env.fs.stat path = DirState.unreadable) →
      sysfs_open_class_device env path = none) ∧
    (∀ nm c, sysfs_get_name_from_path path = some nm →
      env.fs.stat path = DirState.ok c →
      (sysfs_open_class_device env path).isSome = true) := by
  constructor
  · intro h
    unfold sysfs_open_class_device
    cases hn : sysfs_get_name_from_path path
    · rfl
    · cases h with
      | inl ha => rw [ha]
      | inr hu => rw [hu]
  · intro nm c hn hs
    unfold sysfs_open_class_device
    rw [hn, hs]
    simp

/-- Witness for the amended C6: an absent path propagates as an error; a
readable class device directory with an unreadable subdirectory still
yields a ClassDevice. -/
theorem snapshot_failure_propagation_witness :
    sysfs_open_class_device envSubFail "/gone" = none ∧
    (sysfs_open_class_device envSubFail "/sys/class/net/eth0").isSome
      = true := by
  constructor
  · exact (snapshot_failure_propagation envSubFail "/gone").1
      (Or.inl (by decide))
  · exact (snapshot_failure_propagation envSubFail "/sys/class/net/eth0").2
      "eth0"
      { attributes := [], subdirs := ["/sys/class/net/eth0/s"], links := [] }
      (by decide) (by decide)

/-- Helper: a device built by `sysfs_open_device` records the opened path
as the path of its owned snapshot. -/
theorem open_device_dirPath (env : Env) (p : String) (d : SDevice)
    (h : sysfs_open_device env p = some d) : d.dirPath = p := by
  unfold sysfs_open_device at h
  cases hs : env.fs.stat p <;> rw [hs] at h
  · exact absurd h (by simp)
  · exact absurd h (by simp)
  · cases Option.some_inj.mp h
    rfl

/-- Helper: a driver built by the driver builder records the opened path. -/
theorem open_driver_path (env : Env) (p : String) (d : SDriver)
    (h : sysfs_open_driver env p = some d) : d.path = p := by
  unfold sysfs_open_driver at h
  cases hn : sysfs_get_name_from_path p <;> rw [hn] at h
  · exact absurd h (by simp)
  · cases hs : env.fs.stat p <;> rw [hs] at h
    · exact absurd h (by simp)
    · exact absurd h (by simp)
    · cases Option.some_inj.mp h
      rfl

/-- Helper: one symlink-scan step preserves reference validity, updates the
resolved device target exactly when the link name matches the six-character
device-link form and its target opens (overriding the previous value), and
symmetrically for the driver target. -/
theorem scanLink_step (env : Env) (st : LinkScanState) (l : SLink)
    (hok : StOK st) :
    StOK (scanLink env st l) ∧
    stDevTarget (scanLink env st l) =
      (if l.name.take 6 == SYSFS_DEVICES_NAME.take 6 then
        match sysfs_open_device env l.target with
        | some _ => some l.target
        | none => stDevTarget st
       else stDevTarget st) ∧
    stDrvTarget (scanLink env st l) =
      (if l.name.take 6 == SYSFS_DRIVERS_NAME.take 6 then
        match sysfs_open_driver env l.target with
        | some _ => some l.target
        | none => stDrvTarget st
       else stDrvTarget st) := by
  obtain ⟨hd, hr⟩ := hok
  cases h1 : (l.name.take 6 == SYSFS_DEVICES_NAME.take 6) with
  | true =>
    have h1' : l.name.take 6 = SYSFS_DEVICES_NAME.take 6 := by
      simpa using h1
    have h2 : (l.name.take 6 == SYSFS_DRIVERS_NAME.take 6) = false := by
      rw [h1']; decide
    cases ho : sysfs_open_device env l.target with
    | none =>
      simp [scanLink, h1, h2, ho]
      exact ⟨hd, hr⟩
    | some sdev =>
      have hdp : sdev.dirPath = l.target :=
        open_device_dirPath env l.target sdev ho
      refine ⟨⟨?_, ?_⟩, ?_, ?_⟩
      · intro i hi
        simp [scanLink, h1, ho] at hi ⊢
        omega
      · intro i hi
        simp [scanLink, h1, ho] at hi ⊢
        exact hr i hi
      · simp [scanLink, h1, ho, stDevTarget, List.getElem?_concat_length,
          apply_ite SDevice.dirPath, hdp]
      · simp [scanLink, h1, h2, ho, stDrvTarget]
  | false =>
    cases h2 : (l.name.take 6 == SYSFS_DRIVERS_NAME.take 6) with
    | false =>
      simp [scanLink, h1, h2]
      exact ⟨hd, hr⟩
    | true =>
      cases ho : sysfs_open_driver env l.target with
      | none =>
        simp [scanLink, h1, h2, ho]
        exact ⟨hd, hr⟩
      | some drv =>
        have hdp : drv.path = l.target :=
          open_driver_path env l.target drv ho
        refine ⟨⟨?_, ?_⟩, ?_, ?_⟩
        · intro i hi
          simp [scanLink, h1, h2, ho] at hi ⊢
          exact hd i hi
        · intro i hi
          simp [scanLink, h1, h2, ho] at hi ⊢
          omega
        · simp [scanLink, h1, h2, ho, stDevTarget]
        · simp [scanLink, h1, h2, ho, stDrvTarget, List.getElem?_concat_length,
            apply_ite SDriver.path, hdp]

/-- Helper: folding the symlink scan over a link list refines the two
last-matching-link-wins folds. -/
theorem scan_fold (env : Env) (ls : List SLink) : ∀ st : LinkScanState,
    StOK st →
    StOK (ls.foldl (scanLink env) st) ∧
    stDevTarget (ls.foldl (scanLink env) st) =
      ls.foldl (fun acc l =>
        if l.name.take 6 == SYSFS_DEVICES_NAME.take 6 then
          match sysfs_open_device env l.target with
          | some _ => some l.target
          | none => acc
        else acc) (stDevTarget st) ∧
    stDrvTarget (ls.foldl (scanLink env) st) =
      ls.foldl (fun acc l =>
        if l.name.take 6 == SYSFS_DRIVERS_NAME.take 6 then
          match sysfs_open_driver env l.target with
          | some _ => some l.target
          | none => acc
        else acc) (stDrvTarget st) := by
  induction ls with
  | nil => intro st hok; exact ⟨hok, rfl, rfl⟩
  | cons l ls ih =>
    intro st hok
    obtain ⟨hok', hdev, hdrv⟩ := scanLink_step env st l hok
    obtain ⟨hok'', hdev', hdrv'⟩ := ih (scanLink env st l) hok'
    simp only [List.foldl_cons]
    exact ⟨hok'', by rw [hdev', hdev], by rw [hdrv', hdrv]⟩

/-- C10: symlink classification in `open_class_device` is by six-character
name comparison against the well-known device-link and driver-link
constants, not by exact match, and among the matching links whose targets
resolve the last one wins (a later successful match overwrites the field
set by an earlier one): the device the build ends up referencing is opened
from the target of the last device-classified link that resolves, and
symmetrically for the driver. -/
theorem symlink_classification_take6 (env : Env) (path nm : String)
    (c : DirContents)
    (hn : sysfs_get_name_from_path path = some nm)
    (hs : env.fs.stat path = DirState.ok c) :
    ∃ r, sysfs_open_class_device env path = some r ∧
      resultDevTarget r = lastDeviceLinkTarget env c.links ∧
      resultDrvTarget r = lastDriverLinkTarget env c.links := by
  obtain ⟨-, hdev, hdrv⟩ := scan_fold env c.links
    { devs := [], drvs := [], sysdevice := none, driver := none }
    ⟨(by intro i hi; cases hi), (by intro i hi; cases hi)⟩
  unfold sysfs_open_class_device
  rw [hn, hs]
  exact ⟨_, rfl, hdev, hdrv⟩

/-- Witness for C10: a link literally named "device2" is still classified
as a device link and, coming after a resolving "device" link, overwrites
it: the referenced device is the one opened from the second target. -/
theorem symlink_classification_take6_witness :
    (sysfs_open_class_device envTwoDev "/sys/class/net/eth0").map
        resultDevTarget = some (some "/sys/devices/d2") ∧
    (sysfs_open_class_device envTwoDev "/sys/class/net/eth0").map
        resultDrvTarget = some (some "/sys/bus/drv/r1") := by
  obtain ⟨r, hr, h1, h2⟩ :=
    symlink_classification_take6 envTwoDev "/sys/class/net/eth0" "eth0"
      { attributes := [], subdirs := [],
        links := [{ name := "device", target := "/sys/devices/d1" },
                  { name := "device2", target := "/sys/devices/d2" },
                  { name := "driver", target := "/sys/bus/drv/r1" }] }
      (by decide) (by decide)
  rw [hr]
  simp only [Option.map_some']
  constructor
  · rw [h1]; decide
  · rw [h2]; decide

/-- Helper: the class-device collection loop is the order-preserving filter
of the successful builds over the subdirectory list, appended to the
accumulator, with the collection left unallocated when nothing succeeds. -/
theorem get_all_class_devices_spec (env : Env) (ps : List String) :
    ∀ acc, get_all_class_devices env acc ps =
      match acc with
      | none =>
        if (ps.filterMap (sysfs_open_class_device env)).isEmpty then none
        else some (ps.filterMap (sysfs_open_class_device env))
      | some l => some (l ++ ps.filterMap (sysfs_open_class_device env)) := by
  induction ps with
  | nil =>
    intro acc
    cases acc <;> simp [get_all_class_devices]
  | cons p ps ih =>
    intro acc
    cases ho : sysfs_open_class_device env p with
    | none =>
      cases acc <;> simp [get_all_class_devices, ho, ih]
    | some r =>
      cases acc with
      | none =>
        simp [get_all_class_devices, ho, ih, dlist_unshift]
      | some l =>
        simp [get_all_class_devices, ho, ih, dlist_unshift]

/-- Helper: the shape of a successful `sysfs_open_class` result. -/
theorem open_class_ok (env : Env) (name m : String) (c : DirContents)
    (hm : env.mnt = some m)
    (hs : env.fs.stat (m ++ SYSFS_CLASS_DIR ++ "/" ++ name)
      = DirState.ok c) :
    sysfs_open_class env name =
      some { name := name
             path := m ++ SYSFS_CLASS_DIR ++ "/" ++ name
             directory := some { path := m ++ SYSFS_CLASS_DIR ++ "/" ++ name,
                                 contents := c, subdirsRead := none }
             devices := get_all_class_devices env none c.subdirs } := by
  unfold sysfs_open_class
  rw [hm]
  simp only [hs]

/-- C4: a failing class device build is non-fatal — whenever the class root
opens and lists successfully, `open_class` returns a Class, and with three
subdirectories of which only the second fails to parse, the returned
devices collection holds exactly the two ClassDevice objects built from the
first and third subdirectories, in that order. -/
theorem open_class_skips_failing_devices :
    (∀ (env : Env) (name m : String) (c : DirContents),
      env.mnt = some m →
      env.fs.stat (m ++ SYSFS_CLASS_DIR ++ "/" ++ name) = DirState.ok c →
      (sysfs_open_class env name).isSome = true) ∧
    (∀ (env : Env) (name m : String) (c : DirContents)
        (p1 p2 p3 : String) (r1 r3 : OpenCDevResult),
      env.mnt = some m →
      env.fs.stat (m ++ SYSFS_CLASS_DIR ++ "/" ++ name) = DirState.ok c →
      c.subdirs = [p1, p2, p3] →
      sysfs_open_class_device env p1 = some r1 →
      sysfs_open_class_device env p2 = none →
      sysfs_open_class_device env p3 = some r3 →
      ∃ cls, sysfs_open_class env name = some cls ∧
        cls.devices = some [r1, r3]) := by
  constructor
  · intro env name m c hm hs
    rw [open_class_ok env name m c hm hs]
    rfl
  · intro env name m c p1 p2 p3 r1 r3 hm hs hsub h1 h2 h3
    refine ⟨_, open_class_ok env name m c hm hs, ?_⟩
    rw [get_all_class_devices_spec env c.subdirs none, hsub]
    simp [h1, h2, h3]

/-- Witness for C4: a class root with three subdirectories whose middle one
is absent yields a Class whose devices are exactly the first and third
builds. -/
theorem open_class_skips_failing_devices_witness :
    (sysfs_open_class envCls "net").isSome = true ∧
    (sysfs_open_class envCls "net").map SClass.devices =
      some (some [rCls1, rCls3]) := by
  constructor
  · exact (open_class_skips_failing_devices).1 envCls "net" "/sys"
      { attributes := [],
        subdirs := ["/sys/class/net/e1", "/sys/class/net/e2",
                    "/sys/class/net/e3"], links := [] }
      (by decide) (by decide)
  · obtain ⟨cls, hcls, hdev⟩ := (open_class_skips_failing_devices).2 envCls
      "net" "/sys"
      { attributes := [],
        subdirs := ["/sys/class/net/e1", "/sys/class/net/e2",
                    "/sys/class/net/e3"], links := [] }
      "/sys/class/net/e1" "/sys/class/net/e2" "/sys/class/net/e3"
      rCls1 rCls3
      (by decide) (by decide) (by decide)
      (by decide) (by decide) (by decide)
    rw [hcls]
    simp [hdev]

/-- Helper: a successful children loop returns exactly the subtrees built
in subdirectory order, appended to the accumulator, leaving the collection
unallocated when it starts unallocated and no child is inserted. -/
theorem openDevChildren_success (bus : String → String) (base : DevBase)
    (ts : List FsTree) :
    ∀ acc ks evs, openDevChildrenEv bus base acc ts = (some ks, evs) →
    ∃ kids, buildKidsInOrder bus ts = some kids ∧
      ks = (match acc with
            | none => if kids.isEmpty then none else some kids
            | some l => some (l ++ kids)) := by
  induction ts with
  | nil =>
    intro acc ks evs h
    simp only [openDevChildrenEv] at h
    injection h with h1 h2
    injection h1 with h1
    refine ⟨[], rfl, ?_⟩
    cases acc with
    | none => rw [← h1]; simp
    | some l => rw [← h1]; simp
  | cons t ts ih =>
    intro acc ks evs h
    simp only [openDevChildrenEv] at h
    cases ho : openDevTreeEv bus t with
    | mk o evs1 =>
      rw [ho] at h
      cases o with
      | none => simp at h
      | some child =>
        simp only [] at h
        cases hrec : openDevChildrenEv bus base (some (dlist_unshift acc child)) ts with
        | mk o2 evs2 =>
          rw [hrec] at h
          injection h with h1 h2
          have h1' : o2 = some ks := h1
          rw [h1'] at hrec
          obtain ⟨kids, hk, hks⟩ := ih (some (dlist_unshift acc child)) ks evs2 hrec
          refine ⟨child :: kids, ?_, ?_⟩
          · simp [buildKidsInOrder, sysfs_open_device_tree, ho, hk]
          · rw [hks]
            cases acc with
            | none => simp [dlist_unshift]
            | some l => simp [dlist_unshift]

/-- Helper: the shape of a successful root build of the device tree
builder. -/
theorem openDevTree_node_success (bus : String → String)
    (nm p : String) (attrs : List SAttr) (links : List SLink)
    (subs : List FsTree) (d : DevTree)
    (h : sysfs_open_device_tree bus (FsTree.node nm p attrs links subs)
      = some d) :
    ∃ ks evs,
      openDevChildrenEv bus
        { bus_id := nm, bus_name := bus nm,
          name := deviceNameFromAttrs attrs, path := p, driver := none }
        none subs = (some ks, evs) ∧
      d = DevTree.mk
        { bus_id := nm, bus_name := bus nm,
          name := deviceNameFromAttrs attrs, path := p, driver := none }
        ks := by
  unfold sysfs_open_device_tree at h
  simp only [openDevTreeEv] at h
  cases hc : openDevChildrenEv bus
      { bus_id := nm, bus_name := bus nm,
        name := deviceNameFromAttrs attrs, path := p, driver := none }
      none subs with
  | mk o evs =>
    rw [hc] at h
    cases o with
    | none => simp at h
    | some ks =>
      simp only [] at h
      injection h with h1
      exact ⟨ks, evs, rfl, h1.symm⟩

/-- C2: collections preserve encounter order — the children attached to a
successfully built tree root are exactly the subtrees built from the
subdirectory entries in snapshot order, and the devices collection of a
successfully opened class lists exactly the class devices that built
successfully, in subdirectory order (first successful first listed); in
both cases the collection is absent rather than empty when nothing was
inserted. -/
theorem collections_preserve_encounter_order :
    (∀ (bus : String → String) (nm p : String) (attrs : List SAttr)
        (links : List SLink) (subs : List FsTree) (d : DevTree),
      sysfs_open_device_tree bus (FsTree.node nm p attrs links subs)
        = some d →
      ∃ kids, buildKidsInOrder bus subs = some kids ∧
        d.children = (if kids.isEmpty then none else some kids)) ∧
    (∀ (env : Env) (name m : String) (c : DirContents) (cls : SClass),
      env.mnt = some m →
      env.fs.stat (m ++ SYSFS_CLASS_DIR ++ "/" ++ name) = DirState.ok c →
      sysfs_open_class env name = some cls →
      cls.devices =
        (if (c.subdirs.filterMap (sysfs_open_class_device env)).isEmpty
         then none
         else some (c.subdirs.filterMap (sysfs_open_class_device env)))) := by
  constructor
  · intro bus nm p attrs links subs d h
    obtain ⟨ks, evs, hc, hd⟩ :=
      openDevTree_node_success bus nm p attrs links subs d h
    obtain ⟨kids, hk, hks⟩ :=
      openDevChildren_success bus _ subs none ks evs hc
    refine ⟨kids, hk, ?_⟩
    rw [hd, hks]
    rfl
  · intro env name m c cls hm hs hcls
    rw [open_class_ok env name m c hm hs] at hcls
    cases Option.some_inj.mp hcls
    simp only []
    rw [get_all_class_devices_spec env c.subdirs none]

/-- Witness for C2: the concrete two-child tree builds with its children in
subdirectory order, and the concrete class with a failing middle
subdirectory lists its two surviving devices in subdirectory order. -/
theorem collections_preserve_encounter_order_witness :
    (∃ kids, buildKidsInOrder busN
        [FsTree.node "a" "/sys/devices/r/a" [] [] [],
         FsTree.node "b" "/sys/devices/r/b" [] [] []] = some kids ∧
      tOkBuilt.children = (if kids.isEmpty then none else some kids)) ∧
    (sysfs_open_class envCls "net").map SClass.devices
      = some (some [rCls1, rCls3]) := by
  constructor
  · exact (collections_preserve_encounter_order).1 busN "r" "/sys/devices/r"
      [] []
      [FsTree.node "a" "/sys/devices/r/a" [] [] [],
       FsTree.node "b" "/sys/devices/r/b" [] [] []]
      tOkBuilt rfl
  · obtain hd := (collections_preserve_encounter_order).2 envCls "net" "/sys"
      { attributes := [],
        subdirs := ["/sys/class/net/e1", "/sys/class/net/e2",
                    "/sys/class/net/e3"], links := [] }
      { name := "net", path := "/sys/class/net",
        directory := some { path := "/sys/class/net",
                            contents := { attributes := [],
                                          subdirs := ["/sys/class/net/e1",
                                                      "/sys/class/net/e2",
                                                      "/sys/class/net/e3"],
                                          links := [] },
                            subdirsRead := none },
        devices := some [rCls1, rCls3] }
      (by decide) (by decide) (by decide)
    decide

/-- Helper: the well-formedness of a built tree is the well-formedness of
its children collection. -/
theorem devTreeWF_mk (b : DevBase) (ks : Option (List DevTree)) :
    devTreeWF (DevTree.mk b ks) = kidsWF ks := by
  cases ks <;> rfl

/-- Helper: list well-formedness distributes over append. -/
theorem devTreeListWF_append (l1 l2 : List DevTree) :
    devTreeListWF (l1 ++ l2) = (devTreeListWF l1 && devTreeListWF l2) := by
  induction l1 with
  | nil => simp [devTreeListWF]
  | cons t ts ih => simp [devTreeListWF, ih, Bool.and_assoc]

/-- Helper: every tree produced by the device tree builder has only absent
or non-empty children collections, at every node. -/
theorem openDevTree_wf (bus : String → String) :
    ∀ t d evs, openDevTreeEv bus t = (some d, evs) → devTreeWF d = true := by
  intro t
  refine openDevTreeEv.induct bus
    (fun t => ∀ d evs, openDevTreeEv bus t = (some d, evs) →
      devTreeWF d = true)
    (fun base acc ts => kidsWF acc = true →
      ∀ res evs, openDevChildrenEv bus base acc ts = (some res, evs) →
        kidsWF res = true)
    ?_ ?_ ?_ ?_ ?_ ?_ ?_ t
  · intro d evs h
    exact absurd h (by simp [openDevTreeEv])
  · intro d evs h
    exact absurd h (by simp [openDevTreeEv])
  · intro a a1 a2 a3 a4 base evs0 heq ih d evs h
    simp only [openDevTreeEv] at h
    rw [heq] at h
    exact absurd h (by simp)
  · intro a a1 a2 a3 a4 base kids evs0 heq ih d evs h
    simp only [openDevTreeEv] at h
    rw [heq] at h
    injection h with h1 h2
    injection h1 with h1
    rw [← h1, devTreeWF_mk]
    exact ih rfl kids evs0 heq
  · intro base acc hacc res evs h
    simp only [openDevChildrenEv] at h
    injection h with h1 h2
    injection h1 with h1
    rw [← h1]
    exact hacc
  · intro base acc t ts evs1 ho iht hacc res evs h
    simp only [openDevChildrenEv] at h
    rw [ho] at h
    exact absurd h (by simp)
  · intro base acc t ts child evs1 ho iht ihts hacc res evs h
    simp only [openDevChildrenEv] at h
    rw [ho] at h
    simp only [] at h
    cases hrec : openDevChildrenEv bus base (some (dlist_unshift acc child))
        ts with
    | mk o2 evs2 =>
      rw [hrec] at h
      injection h with h1 h2
      have h1' : o2 = some res := h1
      rw [h1'] at hrec
      have hchild : devTreeWF child = true := iht child evs1 ho
      have hlist : devTreeListWF (acc.getD []) = true := by
        cases acc with
        | none => rfl
        | some l0 =>
          have := hacc
          simp only [kidsWF, Bool.and_eq_true] at this
          exact this.2
      have hacc' : kidsWF (some (dlist_unshift acc child)) = true := by
        simp [kidsWF, dlist_unshift, devTreeListWF_append, devTreeListWF,
          hchild, hlist]
      exact ihts hacc' res evs2 hrec

/-- Helper: the shape of a successful `sysfs_open_class` as seen from its
hypotheses. -/
theorem open_class_some (env : Env) (name : String) (cls : SClass)
    (h : sysfs_open_class env name = some cls) :
    ∃ m c, env.mnt = some m ∧
      env.fs.stat (m ++ SYSFS_CLASS_DIR ++ "/" ++ name) = DirState.ok c ∧
      cls.devices = get_all_class_devices env none c.subdirs := by
  unfold sysfs_open_class at h
  split at h
  · exact absurd h (by simp)
  · rename_i m hm
    split at h
    · rename_i c hst
      cases Option.some_inj.mp h
      exact ⟨m, c, hm, hst, rfl⟩
    · exact absurd h (by simp)

/-- C8: empty collections are normalized to absent — every tree returned by
`open_device_tree` has, at every node, a children collection that is either
absent or non-empty, and every class returned by `open_class` has a devices
collection that is either absent or non-empty; a present-but-empty
collection is never produced. -/
theorem collections_absent_when_empty :
    (∀ (bus : String → String) (t : FsTree) (d : DevTree),
      sysfs_open_device_tree bus t = some d → devTreeWF d = true) ∧
    (∀ (env : Env) (name : String) (cls : SClass),
      sysfs_open_class env name = some cls → cls.devices ≠ some []) := by
  constructor
  · intro bus t d h
    unfold sysfs_open_device_tree at h
    cases hc : openDevTreeEv bus t with
    | mk o evs =>
      rw [hc] at h
      have h' : o = some d := h
      rw [h'] at hc
      exact openDevTree_wf bus t d evs hc
  · intro env name cls h hempty
    obtain ⟨m, c, hm, hst, hdev⟩ := open_class_some env name cls h
    rw [get_all_class_devices_spec env c.subdirs none] at hdev
    rw [hempty] at hdev
    by_cases he : (c.subdirs.filterMap (sysfs_open_class_device env)).isEmpty
    · rw [if_pos he] at hdev
      exact absurd hdev.symm (by simp)
    · rw [if_neg he] at hdev
      have : (c.subdirs.filterMap (sysfs_open_class_device env)) = [] :=
        (Option.some_inj.mp hdev).symm
      rw [this] at he
      exact he rfl

/-- Witness for C8: the concrete two-child tree is well-formed at every
node, and the concrete class devices collection is not present-but-empty. -/
theorem collections_absent_when_empty_witness :
    devTreeWF tOkBuilt = true ∧ clsNet.devices ≠ some [] := by
  constructor
  · exact (collections_absent_when_empty).1 busN tOk tOkBuilt rfl
  · exact (collections_absent_when_empty).2 envCls "net" clsNet (by decide)

/-- Helper: device-allocation counts add over trace concatenation. -/
theorem countOpenDev_append (a b : List Ev) :
    countOpenDev (a ++ b) = countOpenDev a + countOpenDev b := by
  simp [countOpenDev, List.countP_append]

/-- Helper: device-free counts add over trace concatenation. -/
theorem countCloseDev_append (a b : List Ev) :
    countCloseDev (a ++ b) = countCloseDev a + countCloseDev b := by
  simp [countCloseDev, List.countP_append]

/-- Helper: the size of a built tree is one more than the size of its
children collection. -/
theorem devTreeSize_mk (b : DevBase) (ks : Option (List DevTree)) :
    devTreeSize (DevTree.mk b ks) = 1 + kidsSize ks := by
  cases ks <;> rfl

/-- Helper: list sizes add over append. -/
theorem devTreeListSize_append (l1 l2 : List DevTree) :
    devTreeListSize (l1 ++ l2) = devTreeListSize l1 + devTreeListSize l2 := by
  induction l1 with
  | nil => simp [devTreeListSize]
  | cons t ts ih => simp [devTreeListSize, ih]; omega

/-- Helper: inserting a child adds its size to the accumulator size. -/
theorem kidsSize_unshift (acc : Option (List DevTree)) (child : DevTree) :
    kidsSize (some (dlist_unshift acc child))
      = kidsSize acc + devTreeSize child := by
  cases acc with
  | none => simp [kidsSize, dlist_unshift, devTreeListSize_append,
      devTreeListSize]
  | some l => simp [kidsSize, dlist_unshift, devTreeListSize_append,
      devTreeListSize]

/-- Helper: a directory free is not a device allocation. -/
theorem countOpenDev_closeDir (p : String) (evs : List Ev) :
    countOpenDev (Ev.closeDir p :: evs) = countOpenDev evs := by
  simp [countOpenDev, List.countP_cons]

/-- Helper: a device free is not a device allocation. -/
theorem countOpenDev_closeDev (p : String) (evs : List Ev) :
    countOpenDev (Ev.closeDev p :: evs) = countOpenDev evs := by
  simp [countOpenDev, List.countP_cons]

/-- Helper: a device allocation counts as one. -/
theorem countOpenDev_openDev (p : String) (evs : List Ev) :
    countOpenDev (Ev.openDev p :: evs) = countOpenDev evs + 1 := by
  simp [countOpenDev, List.countP_cons]

/-- Helper: the empty trace allocates nothing. -/
theorem countOpenDev_nil : countOpenDev [] = 0 := rfl

/-- Helper: a directory free is not a device free. -/
theorem countCloseDev_closeDir (p : String) (evs : List Ev) :
    countCloseDev (Ev.closeDir p :: evs) = countCloseDev evs := by
  simp [countCloseDev, List.countP_cons]

/-- Helper: a device free counts as one. -/
theorem countCloseDev_closeDev (p : String) (evs : List Ev) :
    countCloseDev (Ev.closeDev p :: evs) = countCloseDev evs + 1 := by
  simp [countCloseDev, List.countP_cons]

/-- Helper: a device allocation is not a device free. -/
theorem countCloseDev_openDev (p : String) (evs : List Ev) :
    countCloseDev (Ev.openDev p :: evs) = countCloseDev evs := by
  simp [countCloseDev, List.countP_cons]

/-- Helper: the empty trace frees nothing. -/
theorem countCloseDev_nil : countCloseDev [] = 0 := rfl

/-- Helper: the unallocated children collection has size zero. -/
theorem kidsSize_none : kidsSize none = 0 := rfl

/-- Helper: the teardown trace of a tree allocates nothing and frees
exactly one device per node. -/
theorem closeDevTree_counts :
    ∀ t : DevTree, countOpenDev (closeDevTreeEv t) = 0 ∧
      countCloseDev (closeDevTreeEv t) = devTreeSize t := by
  intro t
  refine closeDevTreeEv.induct
    (fun t => countOpenDev (closeDevTreeEv t) = 0 ∧
      countCloseDev (closeDevTreeEv t) = devTreeSize t)
    (fun ts => countOpenDev (closeDevTreeListEv ts) = 0 ∧
      countCloseDev (closeDevTreeListEv ts) = devTreeListSize ts)
    ?_ ?_ ?_ ?_ t
  · intro b
    constructor
    · simp [closeDevTreeEv, countOpenDev_closeDir, countOpenDev_closeDev,
        countOpenDev_nil]
    · simp [closeDevTreeEv, countCloseDev_closeDir, countCloseDev_closeDev,
        countCloseDev_nil, devTreeSize]
  · intro b kids ih
    obtain ⟨ih1, ih2⟩ := ih
    constructor
    · simp [closeDevTreeEv, countOpenDev_append, ih1, countOpenDev_closeDir,
        countOpenDev_closeDev, countOpenDev_nil]
    · simp only [closeDevTreeEv, countCloseDev_append, ih2,
        countCloseDev_closeDir, countCloseDev_closeDev, countCloseDev_nil,
        devTreeSize_mk, kidsSize]
      omega
  · exact ⟨rfl, rfl⟩
  · intro t ts iht ihts
    obtain ⟨a1, a2⟩ := iht
    obtain ⟨b1, b2⟩ := ihts
    constructor
    · simp only [closeDevTreeListEv, countOpenDev_append, a1, b1]
    · simp only [closeDevTreeListEv, countCloseDev_append, a2, b2,
        devTreeListSize]

/-- Helper: the build trace of the device tree builder balances allocation
and free counts on failure and frees nothing on success, where a success
allocates exactly the size of the returned tree. -/
theorem openDevTree_balance (bus : String → String) :
    ∀ t res evs, openDevTreeEv bus t = (res, evs) →
      (res = none → countOpenDev evs = countCloseDev evs) ∧
      (∀ d, res = some d → countCloseDev evs = 0 ∧
        countOpenDev evs = devTreeSize d) := by
  intro t
  refine openDevTreeEv.induct bus
    (fun t => ∀ res evs, openDevTreeEv bus t = (res, evs) →
      (res = none → countOpenDev evs = countCloseDev evs) ∧
      (∀ d, res = some d → countCloseDev evs = 0 ∧
        countOpenDev evs = devTreeSize d))
    (fun base acc ts => ∀ res evs,
      openDevChildrenEv bus base acc ts = (res, evs) →
      (res = none →
        countCloseDev evs = countOpenDev evs + 1 + kidsSize acc) ∧
      (∀ ks, res = some ks → countCloseDev evs = 0 ∧
        kidsSize ks = kidsSize acc + countOpenDev evs))
    ?_ ?_ ?_ ?_ ?_ ?_ ?_ t
  · intro res evs h
    simp only [openDevTreeEv] at h
    injection h with h1 h2
    rw [← h1, ← h2]
    constructor
    · intro; rfl
    · intro d hd; exact absurd hd.symm (by simp)
  · intro res evs h
    simp only [openDevTreeEv] at h
    injection h with h1 h2
    rw [← h1, ← h2]
    constructor
    · intro; rfl
    · intro d hd; exact absurd hd.symm (by simp)
  · intro a a1 a2 a3 a4 base evs0 heq ih res evs h
    simp only [openDevTreeEv] at h
    rw [heq] at h
    injection h with h1 h2
    rw [← h1, ← h2]
    obtain ⟨hfail, -⟩ := ih none evs0 heq
    constructor
    · intro
      have hb := hfail rfl
      rw [kidsSize_none] at hb
      rw [countOpenDev_openDev, countCloseDev_openDev]
      omega
    · intro d hd; exact absurd hd.symm (by simp)
  · intro a a1 a2 a3 a4 base kids evs0 heq ih res evs h
    simp only [openDevTreeEv] at h
    rw [heq] at h
    injection h with h1 h2
    rw [← h1, ← h2]
    obtain ⟨-, hsucc⟩ := ih (some kids) evs0 heq
    obtain ⟨hc0, hsize⟩ := hsucc kids rfl
    constructor
    · intro hn; exact absurd hn.symm (by simp)
    · intro d hd
      have hd' : DevTree.mk base kids = d := Option.some_inj.mp hd
      rw [← hd', devTreeSize_mk]
      rw [kidsSize_none] at hsize
      constructor
      · rw [countCloseDev_openDev, hc0]
      · rw [countOpenDev_openDev, hsize]
        omega
  · intro base acc res evs h
    simp only [openDevChildrenEv] at h
    injection h with h1 h2
    rw [← h1, ← h2]
    constructor
    · intro hn; exact absurd hn.symm (by simp)
    · intro ks hks
      have : acc = ks := Option.some_inj.mp hks
      rw [← this]
      exact ⟨rfl, by simp [countOpenDev_nil]⟩
  · intro base acc t ts evs1 ho iht res evs h
    simp only [openDevChildrenEv] at h
    rw [ho] at h
    injection h with h1 h2
    rw [← h1, ← h2]
    obtain ⟨hfail, -⟩ := iht none evs1 ho
    have hbal := hfail rfl
    obtain ⟨hcz, hcs⟩ := closeDevTree_counts (DevTree.mk base acc)
    constructor
    · intro
      rw [countCloseDev_append, countOpenDev_append, hcz, hcs,
        devTreeSize_mk, hbal]
      omega
    · intro d hd; exact absurd hd.symm (by simp)
  · intro base acc t ts child evs1 ho iht ihts res evs h
    simp only [openDevChildrenEv] at h
    rw [ho] at h
    simp only [] at h
    cases hrec : openDevChildrenEv bus base (some (dlist_unshift acc child))
        ts with
    | mk o2 evs2 =>
      rw [hrec] at h
      injection h with h1 h2
      have h1' : o2 = res := h1
      have h2' : evs1 ++ evs2 = evs := h2
      rw [← h1', ← h2']
      obtain ⟨-, hts⟩ := iht (some child) evs1 ho
      obtain ⟨hcz, hsz⟩ := hts child rfl
      obtain ⟨hfail2, hsucc2⟩ := ihts o2 evs2 hrec
      constructor
      · intro hn
        have h2' := hfail2 hn
        rw [kidsSize_unshift] at h2'
        rw [countCloseDev_append, countOpenDev_append, hcz, h2', hsz]
        omega
      · intro ks hks
        obtain ⟨hc2, hsz2⟩ := hsucc2 ks hks
        rw [kidsSize_unshift] at hsz2
        rw [countCloseDev_append, countOpenDev_append, hcz, hc2, hsz]
        omega

/-- C3: `open_device_tree` is all-or-nothing — when the root opens but the
recursive build of any subdirectory child fails, the builder returns the
error (no partially built tree), and on every failing build the trace of
device frees exactly balances the trace of device allocations (the
partially built root and all already-built children are closed). -/
theorem device_tree_all_or_nothing :
    (∀ (bus : String → String) (nm p : String) (attrs : List SAttr)
        (links : List SLink) (subs : List FsTree),
      (∃ s ∈ subs, sysfs_open_device_tree bus s = none) →
      sysfs_open_device_tree bus (FsTree.node nm p attrs links subs)
        = none) ∧
    (∀ (bus : String → String) (t : FsTree) (evs : List Ev),
      openDevTreeEv bus t = (none, evs) →
      countOpenDev evs = countCloseDev evs) := by
  constructor
  · intro bus nm p attrs links subs hex
    have key : ∀ (ts : List FsTree) (base : DevBase)
        (acc : Option (List DevTree)),
        (∃ s ∈ ts, sysfs_open_device_tree bus s = none) →
        (openDevChildrenEv bus base acc ts).1 = none := by
      intro ts
      induction ts with
      | nil => intro base acc h; simp at h
      | cons t ts ih =>
        intro base acc ⟨s, hs, hfail⟩
        cases ho : openDevTreeEv bus t with
        | mk o evs1 =>
          cases o with
          | none => simp [openDevChildrenEv, ho]
          | some child =>
            simp only [openDevChildrenEv, ho]
            rcases List.mem_cons.mp hs with rfl | hmem
            · unfold sysfs_open_device_tree at hfail
              rw [ho] at hfail
              exact absurd hfail (by simp)
            · exact ih base (some (dlist_unshift acc child)) ⟨s, hmem, hfail⟩
    unfold sysfs_open_device_tree
    simp only [openDevTreeEv]
    cases hc : openDevChildrenEv bus
        { bus_id := nm, bus_name := bus nm,
          name := deviceNameFromAttrs attrs, path := p, driver := none }
        none subs with
    | mk o evs =>
      have hkey := key subs
        { bus_id := nm, bus_name := bus nm,
          name := deviceNameFromAttrs attrs, path := p, driver := none }
        none hex
      rw [hc] at hkey
      have hko : o = none := hkey
      rw [hko]
  · intro bus t evs h
    exact (openDevTree_balance bus t none evs h).1 rfl

/-- Witness for C3: the concrete tree whose second child is absent fails as
a whole, and its build trace has equally many device allocations and device
frees (two of each: the root and the first child are closed). -/
theorem device_tree_all_or_nothing_witness :
    sysfs_open_device_tree busN tFail = none ∧
    countOpenDev
      [Ev.openDev "/sys/devices/r", Ev.openDev "/sys/devices/r/a",
       Ev.closeDir "/sys/devices/r/a", Ev.closeDev "/sys/devices/r/a",
       Ev.closeDir "/sys/devices/r", Ev.closeDev "/sys/devices/r"] =
    countCloseDev
      [Ev.openDev "/sys/devices/r", Ev.openDev "/sys/devices/r/a",
       Ev.closeDir "/sys/devices/r/a", Ev.closeDev "/sys/devices/r/a",
       Ev.closeDir "/sys/devices/r", Ev.closeDev "/sys/devices/r"] := by
  constructor
  · exact (device_tree_all_or_nothing).1 busN "r" "/sys/devices/r" [] []
      [FsTree.node "a" "/sys/devices/r/a" [] [] [], FsTree.absent]
      ⟨FsTree.absent, by simp, rfl⟩
  · exact (device_tree_all_or_nothing).2 busN tFail
      [Ev.openDev "/sys/devices/r", Ev.openDev "/sys/devices/r/a",
       Ev.closeDir "/sys/devices/r/a", Ev.closeDev "/sys/devices/r/a",
       Ev.closeDir "/sys/devices/r", Ev.closeDev "/sys/devices/r"] rfl

/-- Helper: the teardown trace of a tree is unchanged by any rewrite of
the weak `driver` references of its nodes. -/
theorem closeDevTreeEv_mapTreeDriver (f : Option Nat → Option Nat) :
    ∀ t, closeDevTreeEv (mapTreeDriver f t) = closeDevTreeEv t := by
  intro t
  refine closeDevTreeEv.induct
    (fun t => closeDevTreeEv (mapTreeDriver f t) = closeDevTreeEv t)
    (fun ts => closeDevTreeListEv (mapTreeDriverList f ts)
      = closeDevTreeListEv ts)
    ?_ ?_ ?_ ?_ t
  · intro b
    rfl
  · intro b kids ih
    simp only [mapTreeDriver, closeDevTreeEv, ih]
  · rfl
  · intro t ts iht ihts
    simp only [mapTreeDriverList, closeDevTreeListEv, iht, ihts]

/-- Helper: the teardown trace of a class device is unchanged by any
rewrite of the weak cross-references held in its stores. -/
theorem closeClassDeviceEv_mapWeakRefs (f g : Option Nat → Option Nat)
    (r : OpenCDevResult) :
    closeClassDeviceEv (some (mapWeakRefs f g r))
      = closeClassDeviceEv (some r) := by
  have hdev : closeDeviceEv (r.cdev.sysdevice.bind
      (fun i => (r.devs.map (fun d => { d with driver := f d.driver }))[i]?))
      = closeDeviceEv (r.cdev.sysdevice.bind (fun i => r.devs[i]?)) := by
    cases hsd : r.cdev.sysdevice with
    | none => rfl
    | some i =>
      simp only [Option.some_bind, List.getElem?_map]
      cases hgl : r.devs[i]? with
      | none => rfl
      | some d => rfl
  have hdrv : closeDriverEv (r.cdev.driver.bind
      (fun i => (r.drvs.map (fun dr => { dr with device := g dr.device }))[i]?))
      = closeDriverEv (r.cdev.driver.bind (fun i => r.drvs[i]?)) := by
    cases hsd : r.cdev.driver with
    | none => rfl
    | some i =>
      simp only [Option.some_bind, List.getElem?_map]
      cases hgl : r.drvs[i]? with
      | none => rfl
      | some d => rfl
  simp only [closeClassDeviceEv, mapWeakRefs]
  rw [hdev, hdrv]

/-- Helper: the teardown trace of a class is unchanged by any rewrite of
the weak cross-references held inside its owned class devices. -/
theorem closeClassEv_mapWeakRefs (f g : Option Nat → Option Nat)
    (cls : SClass) :
    closeClassEv (some { cls with
        devices := cls.devices.map (List.map (mapWeakRefs f g)) })
      = closeClassEv (some cls) := by
  have key : ∀ ds : List OpenCDevResult,
      (ds.map (mapWeakRefs f g)).flatMap
        (fun r => closeClassDeviceEv (some r))
        = ds.flatMap (fun r => closeClassDeviceEv (some r)) := by
    intro ds
    induction ds with
    | nil => rfl
    | cons r rs ih =>
      simp only [List.map_cons, List.flatMap_cons, ih,
        closeClassDeviceEv_mapWeakRefs]
  simp only [closeClassEv]
  cases hd : cls.devices with
  | none => rfl
  | some ds =>
    simp only [Option.map_some']
    rw [key ds]

/-- C7: teardown follows only owning edges and tolerates null — every close
operation applied to a null input is a no-op (an empty free trace, not an
error), and no close operation ever follows or frees the weak references:
the free trace of `close_device` is unchanged by the device's `driver`
field, the free trace of `close_driver` by the driver's `device` field, the
free trace of `close_device_tree` by any rewrite of the `driver`
references of its nodes, and the free traces of `close_class_device` and
`close_class` by any rewrite of the weak cross-references held in their
stores. -/
theorem teardown_null_noop_and_weakref_frame :
    (closeDeviceEv none = [] ∧ sysfs_close_device_tree none = [] ∧
     closeClassDeviceEv none = [] ∧ closeClassEv none = [] ∧
     closeDriverEv none = []) ∧
    (∀ (d : SDevice) (i : Option Nat),
      closeDeviceEv (some { d with driver := i }) = closeDeviceEv (some d)) ∧
    (∀ (dr : SDriver) (j : Option Nat),
      closeDriverEv (some { dr with device := j })
        = closeDriverEv (some dr)) ∧
    (∀ (f : Option Nat → Option Nat) (t : DevTree),
      closeDevTreeEv (mapTreeDriver f t) = closeDevTreeEv t) ∧
    (∀ (f g : Option Nat → Option Nat) (r : OpenCDevResult),
      closeClassDeviceEv (some (mapWeakRefs f g r))
        = closeClassDeviceEv (some r)) ∧
    (∀ (f g : Option Nat → Option Nat) (cls : SClass),
      closeClassEv (some { cls with
          devices := cls.devices.map (List.map (mapWeakRefs f g)) })
        = closeClassEv (some cls)) := by
  refine ⟨⟨rfl, rfl, rfl, rfl, rfl⟩, ?_, ?_, ?_, ?_, ?_⟩
  · intro d i
    rfl
  · intro dr j
    rfl
  · intro f t
    exact closeDevTreeEv_mapTreeDriver f t
  · intro f g r
    exact closeClassDeviceEv_mapWeakRefs f g r
  · intro f g cls
    exact closeClassEv_mapWeakRefs f g cls

end Sysfs
